import Mathlib

/-!
Verification of the task-tracking single-page application
(Svelte view model over a Dexie/IndexedDB table of tasks).

The embedding translates the script of `src/routes/+page.svelte`:
strings become lists of characters, the Dexie table becomes a list of
task records together with the auto-increment counter, and the
asynchronous store calls become explicit functions parameterised by an
outcome (`StoreResult`) that says whether the underlying IndexedDB
operation succeeded or rejected.  try/catch blocks become matches on
`Except`; every state-changing handler is a total function on the
application state, mirroring the fact that every store call in the
source is wrapped in try/catch.  A ghost counter `reloads` counts the
calls to `loadTasks` so that "a reload happened" is observable.
-/

namespace Todo

/-- Strings of the embedding: JavaScript strings as lists of characters. -/
abbrev Str := List Char

/-- Whitespace recognised by `String.prototype.trim` (the characters that
occur in this application's inputs). -/
def wsChar (c : Char) : Bool :=
  c == ' ' || c == '\t' || c == '\n' || c == '\r'

/-- `s.trim()`: remove whitespace from both ends. -/
def jsTrim (s : Str) : Str :=
  ((s.dropWhile wsChar).reverse.dropWhile wsChar).reverse

/-- One character of `String.prototype.toLowerCase`, for the alphabets this
application uses: ASCII `A`–`Z` and Cyrillic `А`–`Я`, `Ё`. -/
def charToLower (c : Char) : Char :=
  if 65 ≤ c.toNat ∧ c.toNat ≤ 90 then Char.ofNat (c.toNat + 32)
  else if 1040 ≤ c.toNat ∧ c.toNat ≤ 1071 then Char.ofNat (c.toNat + 32)
  else if c.toNat = 1025 then Char.ofNat 1105
  else c

/-- `s.toLowerCase()`. -/
def toLowerStr (s : Str) : Str := s.map charToLower

/-- Does the subject list start with the pattern `p`? -/
def listStartsWith : Str → Str → Bool
  | [], _ => true
  | _ :: _, [] => false
  | a :: p, b :: s => a == b && listStartsWith p s

/-- `s.includes(p)`: does `s` contain `p` as a contiguous substring? -/
def listContains (p : Str) : Str → Bool
  | [] => p.isEmpty
  | c :: rest => listStartsWith p (c :: rest) || listContains p rest

/-- `status: 'active' | 'completed'`. -/
inductive Status where
  | active
  | completed
deriving DecidableEq, Repr

/-- The `Task` interface: `id` is assigned by the store (absent before
insertion), `description` is optional. -/
structure Task where
  id : Option Nat
  title : Str
  description : Option Str
  status : Status
deriving DecidableEq, Repr

/-- The Dexie table `tasks` with its `++id` auto-increment primary key:
the stored rows in primary-key order plus the next key to assign.
Dexie inbound auto-increment keys start at 1. -/
structure DB where
  rows : List Task
  nextId : Nat
deriving DecidableEq, Repr

/-- A database that was just created, before the populate hook runs. -/
def emptyDB : DB := ⟨[], 1⟩

/-- `table.toArray()`: every record, in primary-key (= insertion) order. -/
def DB.listAll (db : DB) : List Task := db.rows

/-- `table.add(task)`: assign the fresh auto-increment id and append. -/
def dbAdd (db : DB) (t : Task) : DB :=
  ⟨db.rows ++ [{ t with id := some db.nextId }], db.nextId + 1⟩

/-- `table.update(id, {title, description})`: modify only those two fields
of the record with the given key; a missing key is a no-op. -/
def dbUpdate (db : DB) (key : Nat) (nt nd : Str) : DB :=
  ⟨db.rows.map fun r =>
      if r.id = some key then { r with title := nt, description := some nd } else r,
    db.nextId⟩

/-- `table.delete(id)`: remove the record with the given key; deleting an
absent key succeeds as a no-op (Dexie semantics). -/
def dbDelete (db : DB) (key : Nat) : DB :=
  ⟨db.rows.filter fun r => !(r.id == some key), db.nextId⟩

/-- The `db.on('populate')` hook: `bulkAdd` of the three seed tasks.  It
runs only when the database is first created (Dexie populate contract). -/
def seedInput : List Task :=
  [⟨none, "Купить продукты".toList, some "Молоко, хлеб, яйца".toList, .active⟩,
   ⟨none, "Завершить отчет".toList, some "Подготовить презентацию для встречи".toList, .active⟩,
   ⟨none, "Позвонить другу".toList, some "Узнать как дела".toList, .completed⟩]

/-- `bulkAdd`: insert the seed tasks one after another. -/
def populateDB (db : DB) : DB := seedInput.foldl dbAdd db

/-- Opening the database: on first initialization (no existing database)
the populate hook seeds the fresh store; otherwise the existing store is
used unchanged. -/
def openDatabase : Option DB → DB
  | none => populateDB emptyDB
  | some db => db

/-- Outcome of an awaited IndexedDB call: resolve or reject. -/
inductive StoreResult where
  | ok
  | err
deriving DecidableEq, Repr

/-- One entry of the `notifications` store. -/
inductive NoticeType where
  | success
  | error
deriving DecidableEq, Repr

/-- A notification record `{ id, message, type }`. -/
structure Notice where
  nid : Nat
  message : Str
  ntype : NoticeType
deriving DecidableEq, Repr

/-- The mutable component state: the database handle, the `tasks` snapshot
store, the two bound form fields, the editing marker, the loading flag,
the notification list with its id counter, and a ghost counter of
`loadTasks` calls. -/
structure AppState where
  db : DB
  tasks : List Task
  newTaskTitle : Str
  newTaskDescription : Str
  editingTask : Option Task
  isLoading : Bool
  notifications : List Notice
  notificationIdCounter : Nat
  reloads : Nat
deriving Repr

/-- `addNotification(message, type)`: append a notification with the next
id.  (The 2-second auto-dismiss timer is real-time behaviour and is not
part of the state transition.) -/
def addNotification (message : Str) (ntype : NoticeType) (s : AppState) : AppState :=
  { s with
    notifications := s.notifications ++ [⟨s.notificationIdCounter, message, ntype⟩],
    notificationIdCounter := s.notificationIdCounter + 1 }

def msgLoadError : Str := "Ошибка при загрузке задач. Пожалуйста, попробуйте позже.".toList
def msgEmptyTitle : Str := "Название задачи не может быть пустым!".toList
def msgUpdated : Str := "Задача успешно обновлена!".toList
def msgUpdateError : Str := "Ошибка при обновлении задачи. Пожалуйста, попробуйте позже.".toList
def msgAdded : Str := "Задача успешно добавлена!".toList
def msgAddError : Str := "Ошибка при добавлении задачи. Пожалуйста, попробуйте позже.".toList
def msgDeleted : Str := "Задача успешно удалена!".toList
def msgDeleteError : Str := "Ошибка при удалении задачи. Пожалуйста, попробуйте позже.".toList

/-- First half of `loadTasks`: set the loading flag and issue the
`toArray()` call (counted by the ghost `reloads`). -/
def loadTasksStart (s : AppState) : AppState :=
  { s with isLoading := true, reloads := s.reloads + 1 }

/-- Second half of `loadTasks`: on resolve replace the snapshot with the
store contents, on reject notify; the `finally` clears the loading flag
on both paths. -/
def loadTasksFinish (o : StoreResult) (s : AppState) : AppState :=
  match o with
  | .ok => { s with tasks := s.db.listAll, isLoading := false }
  | .err => { addNotification msgLoadError .error s with isLoading := false }

/-- `loadTasks()`. -/
def loadTasks (o : StoreResult) (s : AppState) : AppState :=
  loadTasksFinish o (loadTasksStart s)

/-- `table.update(editingTask.id!, ...)` as an awaited call: rejects when
the store fails, and also when the non-null-asserted key is actually
absent (an invalid IndexedDB key). -/
def updateCall (o : StoreResult) (db : DB) (key : Option Nat) (nt nd : Str) :
    Except Unit DB :=
  match o, key with
  | .ok, some i => .ok (dbUpdate db i nt nd)
  | .ok, none => .error ()
  | .err, _ => .error ()

/-- `table.add(task)` as an awaited call. -/
def addCall (o : StoreResult) (db : DB) (t : Task) : Except Unit DB :=
  match o with
  | .ok => .ok (dbAdd db t)
  | .err => .error ()

/-- `table.delete(id)` as an awaited call: when the store is available it
resolves even for an absent key. -/
def deleteCall (o : StoreResult) (db : DB) (key : Nat) : Except Unit DB :=
  match o with
  | .ok => .ok (dbDelete db key)
  | .err => .error ()

/-- `handleSubmit()`: validate the title; then either update the task
being edited (clearing the marker in `finally`) or insert a new active
task; clear both fields and reload. -/
def handleSubmit (oStore oReload : StoreResult) (s : AppState) : AppState :=
  if (jsTrim s.newTaskTitle).isEmpty then
    addNotification msgEmptyTitle .error s
  else
    let nt := jsTrim s.newTaskTitle
    let nd := jsTrim s.newTaskDescription
    let s1 :=
      match s.editingTask with
      | some et =>
        let s2 :=
          match updateCall oStore s.db et.id nt nd with
          | .ok db' => addNotification msgUpdated .success { s with db := db' }
          | .error _ => addNotification msgUpdateError .error s
        { s2 with editingTask := none }
      | none =>
        match addCall oStore s.db ⟨none, nt, some nd, .active⟩ with
        | .ok db' => addNotification msgAdded .success { s with db := db' }
        | .error _ => addNotification msgAddError .error s
    loadTasks oReload { s1 with newTaskTitle := [], newTaskDescription := [] }

/-- `editTask(task)`. -/
def editTask (t : Task) (s : AppState) : AppState :=
  { s with
    editingTask := some t,
    newTaskTitle := t.title,
    newTaskDescription := t.description.getD [] }

/-- `deleteTask(id)`: an undefined id returns immediately; otherwise the
record is deleted and the list reloaded inside the `try`, with the
`catch` producing the error notification. -/
def deleteTask (oDel oReload : StoreResult) (id : Option Nat) (s : AppState) : AppState :=
  match id with
  | none => s
  | some i =>
    match deleteCall oDel s.db i with
    | .ok db' => loadTasks oReload (addNotification msgDeleted .success { s with db := db' })
    | .error _ => addNotification msgDeleteError .error s

/-- The filter callback: the query is a substring of the lower-cased
title, or the description is truthy (present and non-empty) and the
query is a substring of its lower-cased form. -/
def taskMatches (lowerCaseQuery : Str) (task : Task) : Bool :=
  listContains lowerCaseQuery (toLowerStr task.title) ||
  (match task.description with
   | none => false
   | some d => !d.isEmpty && listContains lowerCaseQuery (toLowerStr d))

/-- The `filteredTasks` derived store as a pure function of the snapshot
and the search query. -/
def filteredTasks (tasks : List Task) (query : Str) : List Task :=
  let lowerCaseQuery := jsTrim (toLowerStr query)
  if lowerCaseQuery.isEmpty then tasks
  else tasks.filter (taskMatches lowerCaseQuery)

/-- Spec-side match predicate, following the specification's words: the
normalized query is a substring of the lower-cased title, or the
description is present and it is a substring of the lower-cased
description. -/
def SpecMatch (nq : Str) (t : Task) : Prop :=
  (∃ l r, toLowerStr t.title = l ++ nq ++ r) ∨
  (∃ d, t.description = some d ∧ ∃ l r, toLowerStr d = l ++ nq ++ r)

lemma listStartsWith_iff (p s : Str) : listStartsWith p s = true ↔ ∃ r, s = p ++ r := by
  induction p generalizing s with
  | nil => simp [listStartsWith]
  | cons a p ih =>
    cases s with
    | nil => simp [listStartsWith]
    | cons b s' =>
      simp only [listStartsWith, Bool.and_eq_true, beq_iff_eq, ih, List.cons_append]
      constructor
      · rintro ⟨hab, r, hr⟩
        exact ⟨r, by rw [hab, hr]⟩
      · rintro ⟨r, hr⟩
        obtain ⟨h1, h2⟩ := List.cons.inj hr
        exact ⟨h1.symm, r, h2⟩

lemma listContains_iff (p s : Str) : listContains p s = true ↔ ∃ l r, s = l ++ p ++ r := by
  induction s with
  | nil =>
    simp only [listContains, List.isEmpty_iff]
    constructor
    · rintro rfl
      exact ⟨[], [], rfl⟩
    · rintro ⟨l, r, hr⟩
      rcases List.append_eq_nil.mp (List.append_eq_nil.mp hr.symm).1 with ⟨-, h⟩
      exact h
  | cons c rest ih =>
    simp only [listContains, Bool.or_eq_true, listStartsWith_iff, ih]
    constructor
    · rintro (⟨r, hr⟩ | ⟨l, r, hr⟩)
      · exact ⟨[], r, by simpa using hr⟩
      · exact ⟨c :: l, r, by simp [hr]⟩
    · rintro ⟨l, r, hr⟩
      cases l with
      | nil => exact Or.inl ⟨r, by simpa using hr⟩
      | cons x l' =>
        obtain ⟨-, h2⟩ := List.cons.inj hr
        exact Or.inr ⟨l', r, h2⟩

lemma taskMatches_iff (nq : Str) (t : Task) (h : nq ≠ []) :
    taskMatches nq t = true ↔ SpecMatch nq t := by
  have hsub : ∀ d : Str, (∃ l r, toLowerStr d = l ++ nq ++ r) → d.isEmpty = false := by
    rintro d ⟨l, r, hr⟩
    cases d with
    | nil =>
      exfalso
      apply h
      have h0 : l ++ nq ++ r = ([] : Str) := by simpa [toLowerStr] using hr.symm
      exact (List.append_eq_nil.mp (List.append_eq_nil.mp h0).1).2
    | cons a d' => rfl
  unfold taskMatches SpecMatch
  cases hd : t.description with
  | none => simp [listContains_iff]
  | some d =>
    simp only [Bool.or_eq_true, Bool.and_eq_true, Bool.not_eq_true', listContains_iff]
    constructor
    · rintro (ht | ⟨-, hc⟩)
      · exact Or.inl ht
      · exact Or.inr ⟨d, rfl, hc⟩
    · rintro (ht | ⟨d', hdd, hc⟩)
      · exact Or.inl ht
      · injection hdd with hdd
        subst hdd
        exact Or.inr ⟨hsub d hc, hc⟩

/-- C1: the filtered view trims and lower-cases the query; an empty
normalized query passes the snapshot through unchanged; otherwise a task
is kept iff the query is a substring of the lower-cased title or of the
lower-cased description when present; kept tasks stay in snapshot order;
and the query "отчет" over the seeded store returns exactly the task
titled "Завершить отчет". -/
theorem filteredTasks_spec (tasks : List Task) (q : Str) :
    List.Sublist (filteredTasks tasks q) tasks ∧
    (jsTrim (toLowerStr q) = [] → filteredTasks tasks q = tasks) ∧
    (∀ t, t ∈ filteredTasks tasks q ↔
      t ∈ tasks ∧ (jsTrim (toLowerStr q) = [] ∨ SpecMatch (jsTrim (toLowerStr q)) t)) ∧
    filteredTasks (openDatabase none).listAll "отчет".toList =
      [⟨some 2, "Завершить отчет".toList,
        some "Подготовить презентацию для встречи".toList, .active⟩] := by
  refine ⟨?_, ?_, ?_, by decide⟩
  · unfold filteredTasks
    by_cases h : (jsTrim (toLowerStr q)).isEmpty <;> simp [h, List.filter_sublist]
  · intro h
    simp [filteredTasks, h]
  · intro t
    by_cases h : jsTrim (toLowerStr q) = []
    · simp [filteredTasks, h]
    · have hne : (jsTrim (toLowerStr q)).isEmpty = false := by
        simpa [List.isEmpty_iff] using h
      simp [filteredTasks, hne, List.mem_filter, taskMatches_iff _ _ h, h]

/-- C1 witness: a whitespace-only query leaves the seeded snapshot
unchanged. -/
theorem filteredTasks_spec_witness :
    filteredTasks seedInput [' ', '\t'] = seedInput :=
  (filteredTasks_spec seedInput [' ', '\t']).2.1 (by decide)

/-- C5: first initialization seeds exactly the three example tasks, ids
1–3 in insertion order with the stated titles and statuses, and
`listAll` immediately after returns exactly them; a subsequent
initialization leaves the existing store untouched. -/
theorem seeding_spec :
    (openDatabase none).listAll =
      [⟨some 1, "Купить продукты".toList, some "Молоко, хлеб, яйца".toList, .active⟩,
       ⟨some 2, "Завершить отчет".toList,
         some "Подготовить презентацию для встречи".toList, .active⟩,
       ⟨some 3, "Позвонить другу".toList, some "Узнать как дела".toList, .completed⟩] ∧
    (∀ db, openDatabase (some db) = db) :=
  ⟨by decide, fun _ => rfl⟩

/-- C10: deleting with an undefined id is a complete no-op on the
application state, for every store outcome. -/
theorem deleteTask_undefined_id (oDel oReload : StoreResult) (s : AppState) :
    deleteTask oDel oReload none s = s := rfl

/-- C7: reload sets the loading flag, is the composition of issuing
`listAll` and handling its outcome, clears the loading flag on both
outcomes, replaces the snapshot with the store contents on success, and
on failure appends the load-error notification and leaves the previous
snapshot unchanged. -/
theorem loadTasks_spec (s : AppState) (o : StoreResult) :
    (loadTasksStart s).isLoading = true ∧
    loadTasks o s = loadTasksFinish o (loadTasksStart s) ∧
    (loadTasks o s).isLoading = false ∧
    (loadTasks .ok s).tasks = s.db.listAll ∧
    (loadTasks .err s).tasks = s.tasks ∧
    (loadTasks .err s).notifications =
      s.notifications ++ [⟨s.notificationIdCounter, msgLoadError, .error⟩] := by
  refine ⟨rfl, rfl, ?_, rfl, rfl, rfl⟩
  cases o <;> rfl

/-- A pointwise relation between a list and its image under a map. -/
lemma forall2_self_map {α : Type _} (R : α → α → Prop) (f : α → α) (l : List α)
    (h : ∀ a, R a (f a)) : List.Forall₂ R l (l.map f) := by
  induction l with
  | nil => exact List.Forall₂.nil
  | cons a t ih => exact List.Forall₂.cons (h a) ih

/-- A concrete state with one stored task whose snapshot is loaded, a
fillable form, and no task being edited. -/
def exState : AppState :=
  { db := ⟨[⟨some 1, ['a'], some ['b'], .active⟩], 2⟩,
    tasks := [⟨some 1, ['a'], some ['b'], .active⟩],
    newTaskTitle := [' ', 'X', ' '],
    newTaskDescription := ['d'],
    editingTask := none,
    isLoading := false,
    notifications := [],
    notificationIdCounter := 0,
    reloads := 0 }

/-- A concrete state whose title input is whitespace only. -/
def exStateBlank : AppState :=
  { exState with newTaskTitle := [' ', ' '] }

/-- A concrete state in which the stored task is being edited. -/
def exStateEditing : AppState :=
  { exState with
    editingTask := some ⟨some 1, ['a'], some ['b'], .active⟩,
    newTaskTitle := ['N'],
    newTaskDescription := ['D'] }

/-- C2: with no task being edited and a non-blank title, a successful
submit followed by its reload leaves the store equal to the previous
rows plus exactly one new record — trimmed title, trimmed description
(empty string when the input was empty), status active, and the fresh
id — and the snapshot equals the new store contents. -/
theorem submit_insert_spec (s : AppState)
    (hEdit : s.editingTask = none)
    (hTitle : (jsTrim s.newTaskTitle).isEmpty = false) :
    (handleSubmit .ok .ok s).db.rows =
      s.db.rows ++
        [⟨some s.db.nextId, jsTrim s.newTaskTitle,
          some (jsTrim s.newTaskDescription), .active⟩] ∧
    (handleSubmit .ok .ok s).tasks = (handleSubmit .ok .ok s).db.rows ∧
    (handleSubmit .ok .ok s).db.nextId = s.db.nextId + 1 := by
  simp [handleSubmit, hTitle, hEdit, addCall, dbAdd, loadTasks, loadTasksStart,
    loadTasksFinish, addNotification, DB.listAll]

/-- C2 witness: inserting a task titled `X` into the one-task state. -/
theorem submit_insert_spec_witness :
    (handleSubmit .ok .ok exState).db.rows =
      exState.db.rows ++
        [⟨some exState.db.nextId, jsTrim exState.newTaskTitle,
          some (jsTrim exState.newTaskDescription), .active⟩] ∧
    (handleSubmit .ok .ok exState).tasks = (handleSubmit .ok .ok exState).db.rows ∧
    (handleSubmit .ok .ok exState).db.nextId = exState.db.nextId + 1 :=
  submit_insert_spec exState rfl (by decide)

/-- C3: a blank title is rejected before any store call: the store, the
snapshot and the reload count are unchanged, the editing marker and the
form fields keep their values, and exactly one validation error
notification is appended. -/
theorem submit_blank_title_spec (o1 o2 : StoreResult) (s : AppState)
    (h : (jsTrim s.newTaskTitle).isEmpty = true) :
    (handleSubmit o1 o2 s).db = s.db ∧
    (handleSubmit o1 o2 s).tasks = s.tasks ∧
    (handleSubmit o1 o2 s).reloads = s.reloads ∧
    (handleSubmit o1 o2 s).editingTask = s.editingTask ∧
    (handleSubmit o1 o2 s).newTaskTitle = s.newTaskTitle ∧
    (handleSubmit o1 o2 s).notifications =
      s.notifications ++ [⟨s.notificationIdCounter, msgEmptyTitle, .error⟩] := by
  simp [handleSubmit, h, addNotification]

/-- C3 witness: submitting the whitespace-only title of `exStateBlank`. -/
theorem submit_blank_title_spec_witness :
    (handleSubmit .ok .ok exStateBlank).db = exStateBlank.db ∧
    (handleSubmit .ok .ok exStateBlank).tasks = exStateBlank.tasks ∧
    (handleSubmit .ok .ok exStateBlank).reloads = exStateBlank.reloads ∧
    (handleSubmit .ok .ok exStateBlank).editingTask = exStateBlank.editingTask ∧
    (handleSubmit .ok .ok exStateBlank).newTaskTitle = exStateBlank.newTaskTitle ∧
    (handleSubmit .ok .ok exStateBlank).notifications =
      exStateBlank.notifications ++
        [⟨exStateBlank.notificationIdCounter, msgEmptyTitle, .error⟩] :=
  submit_blank_title_spec .ok .ok exStateBlank (by decide)

/-- C4: submitting a successful edit rewrites, in place, exactly the
rows carrying the edited id — giving them the trimmed title and
description while keeping their id and status — and leaves every other
row of the store unchanged, in the same order. -/
theorem submit_update_spec (s : AppState) (et : Task) (i : Nat) (oR : StoreResult)
    (hEdit : s.editingTask = some et) (hId : et.id = some i)
    (hTitle : (jsTrim s.newTaskTitle).isEmpty = false) :
    List.Forall₂ (fun old new =>
        (old.id = some i →
          new.id = old.id ∧ new.status = old.status ∧
          new.title = jsTrim s.newTaskTitle ∧
          new.description = some (jsTrim s.newTaskDescription)) ∧
        (old.id ≠ some i → new = old))
      s.db.rows (handleSubmit .ok oR s).db.rows := by
  have hdb : (handleSubmit .ok oR s).db =
      dbUpdate s.db i (jsTrim s.newTaskTitle) (jsTrim s.newTaskDescription) := by
    cases oR <;>
      simp [handleSubmit, hTitle, hEdit, hId, updateCall, loadTasks, loadTasksStart,
        loadTasksFinish, addNotification]
  rw [hdb]
  refine forall2_self_map _ _ _ ?_
  intro a
  by_cases ha : a.id = some i <;> simp [ha]

/-- C4 witness: editing the stored task of `exStateEditing`. -/
theorem submit_update_spec_witness :
    List.Forall₂ (fun old new =>
        (old.id = some 1 →
          new.id = old.id ∧ new.status = old.status ∧
          new.title = jsTrim exStateEditing.newTaskTitle ∧
          new.description = some (jsTrim exStateEditing.newTaskDescription)) ∧
        (old.id ≠ some 1 → new = old))
      exStateEditing.db.rows (handleSubmit .ok .ok exStateEditing).db.rows :=
  submit_update_spec exStateEditing ⟨some 1, ['a'], some ['b'], .active⟩ 1 .ok
    rfl rfl (by decide)

/-- C8: every submission with a non-blank title — insert or update,
store success or failure, reload success or failure — ends with the
editing marker cleared and both form fields reset to the empty string. -/
theorem submit_resets_form (s : AppState) (o1 o2 : StoreResult)
    (hTitle : (jsTrim s.newTaskTitle).isEmpty = false) :
    (handleSubmit o1 o2 s).editingTask = none ∧
    (handleSubmit o1 o2 s).newTaskTitle = [] ∧
    (handleSubmit o1 o2 s).newTaskDescription = [] := by
  cases hE : s.editingTask with
  | none =>
    cases o1 <;> cases o2 <;>
      simp [handleSubmit, hTitle, hE, addCall, loadTasks, loadTasksStart,
        loadTasksFinish, addNotification]
  | some et =>
    cases o1 <;> cases o2 <;> cases hI : et.id <;>
      simp [handleSubmit, hTitle, hE, hI, updateCall, loadTasks, loadTasksStart,
        loadTasksFinish, addNotification]

/-- C8 witness: a failed update of `exStateEditing` still clears the
marker and the fields. -/
theorem submit_resets_form_witness :
    (handleSubmit .err .err exStateEditing).editingTask = none ∧
    (handleSubmit .err .err exStateEditing).newTaskTitle = [] ∧
    (handleSubmit .err .err exStateEditing).newTaskDescription = [] :=
  submit_resets_form exStateEditing .err .err (by decide)

/-- C6 counterexample: when the store delete rejects, `deleteTask` does
not call `reload()` — the reload is inside the `try`, so the catch path
skips it. -/
theorem delete_failure_no_reload_cex :
    ¬ ((deleteTask .err .ok (some 1) exState).reloads = exState.reloads + 1) := by
  decide

/-- C6 (amended): submit with a non-blank title is unconditionally
followed by one reload, whether the store call succeeds or fails; a
successful delete is followed by one reload, while a failed delete
performs no reload and leaves the snapshot unchanged; deleting an id
absent from the store succeeds as a no-op on the rows (no exception in
the application layer) and is still followed by a reload. -/
theorem mutation_reload_spec (s : AppState) (i : Nat) (oS oR : StoreResult) :
    ((jsTrim s.newTaskTitle).isEmpty = false →
      (handleSubmit oS oR s).reloads = s.reloads + 1) ∧
    (deleteTask .ok oR (some i) s).reloads = s.reloads + 1 ∧
    (deleteTask .err oR (some i) s).reloads = s.reloads ∧
    (deleteTask .err oR (some i) s).tasks = s.tasks ∧
    (some i ∉ s.db.rows.map Task.id →
      (deleteTask .ok oR (some i) s).db.rows = s.db.rows ∧
      (deleteTask .ok oR (some i) s).reloads = s.reloads + 1) := by
  refine ⟨?_, ?_, ?_, ?_, ?_⟩
  · intro hTitle
    cases hE : s.editingTask with
    | none =>
      cases oS <;> cases oR <;>
        simp [handleSubmit, hTitle, hE, addCall, loadTasks, loadTasksStart,
          loadTasksFinish, addNotification]
    | some et =>
      cases oS <;> cases oR <;> cases hI : et.id <;>
        simp [handleSubmit, hTitle, hE, hI, updateCall, loadTasks, loadTasksStart,
          loadTasksFinish, addNotification]
  · cases oR <;>
      simp [deleteTask, deleteCall, loadTasks, loadTasksStart, loadTasksFinish,
        addNotification]
  · simp [deleteTask, deleteCall, addNotification]
  · simp [deleteTask, deleteCall, addNotification]
  · intro habsent
    have hrows : s.db.rows.filter (fun r => !(r.id == some i)) = s.db.rows := by
      apply List.filter_eq_self.mpr
      intro a ha
      have : a.id ≠ some i := fun hc => habsent (hc ▸ List.mem_map_of_mem Task.id ha)
      simpa using this
    constructor <;> cases oR <;>
      simp [deleteTask, deleteCall, dbDelete, hrows, loadTasks, loadTasksStart,
        loadTasksFinish, addNotification]

/-- C6 witness: a successful insert reloads once, and deleting the
absent id 5 leaves the rows unchanged while reloading once. -/
theorem mutation_reload_spec_witness :
    (handleSubmit .ok .ok exState).reloads = exState.reloads + 1 ∧
    (deleteTask .ok .ok (some 5) exState).db.rows = exState.db.rows ∧
    (deleteTask .ok .ok (some 5) exState).reloads = exState.reloads + 1 :=
  ⟨(mutation_reload_spec exState 5 .ok .ok).1 (by decide),
   ((mutation_reload_spec exState 5 .ok .ok).2.2.2.2 (by decide)).1,
   ((mutation_reload_spec exState 5 .ok .ok).2.2.2.2 (by decide)).2⟩

/-- C9: every store failure is caught inside the operation and turned
into exactly one error notification: a failed load notifies and still
ends with the loading flag cleared; a failed insert, a failed update and
a failed delete each append their error notification (the operations
are total functions of the state — no exception escapes to the
caller). -/
theorem store_failures_notify (s : AppState) (i : Nat) :
    ((loadTasks .err s).notifications =
        s.notifications ++ [⟨s.notificationIdCounter, msgLoadError, .error⟩] ∧
      (loadTasks .err s).isLoading = false) ∧
    ((jsTrim s.newTaskTitle).isEmpty = false → s.editingTask = none →
      (handleSubmit .err .ok s).notifications =
        s.notifications ++ [⟨s.notificationIdCounter, msgAddError, .error⟩]) ∧
    (∀ et, (jsTrim s.newTaskTitle).isEmpty = false → s.editingTask = some et →
      (handleSubmit .err .ok s).notifications =
        s.notifications ++ [⟨s.notificationIdCounter, msgUpdateError, .error⟩]) ∧
    (deleteTask .err .ok (some i) s).notifications =
      s.notifications ++ [⟨s.notificationIdCounter, msgDeleteError, .error⟩] := by
  refine ⟨⟨rfl, rfl⟩, ?_, ?_, rfl⟩
  · intro hTitle hE
    simp [handleSubmit, hTitle, hE, addCall, loadTasks, loadTasksStart,
      loadTasksFinish, addNotification]
  · intro et hTitle hE
    simp [handleSubmit, hTitle, hE, updateCall, loadTasks, loadTasksStart,
      loadTasksFinish, addNotification]

/-- C9 witness: a failed insert on `exState` appends the add-error
notification. -/
theorem store_failures_notify_witness :
    (handleSubmit .err .ok exState).notifications =
      exState.notifications ++
        [⟨exState.notificationIdCounter, msgAddError, .error⟩] :=
  (store_failures_notify exState 1).2.1 (by decide) rfl

end Todo
